import Mathlib

/-!
Verification of the staged ingestion-and-detection pipeline of the
product-line-monitor repository.

Shallow embedding conventions:
* JavaScript numbers are modelled as real numbers `ℝ`; `Math.sqrt` is
  `Real.sqrt`; `Math.abs` is `|·|`; `Math.pow (· , 2)` is `(·)^2`.
* `number[]` becomes `List ℝ`; `Array.prototype.reduce((a, v) => a + v, 0)`
  is `List.sum`; `Array.prototype.map` is `List.map`.
* Optional parameters and nullable fields become `Option`.
* Timestamps (`Date`) are modelled as integers (the epoch-millisecond value);
  only construction and field transport matter to the pipeline logic.
* Rendered description strings are deterministic functions of the data
  interpolated into them, so they are modelled by `DescriptionModel`, an
  inductive value recording exactly that data (two renderings are equal iff
  the recorded data agrees up to the fixed 2-decimal formatting).
* Database rows and queue contents are modelled as explicit lists inside a
  state record; each repository method becomes a pure state transformer.
-/

/-- Sensor types of the Prisma schema (`SensorType` enum). -/
inductive SensorType
  | TEMPERATURE
  | VIBRATION
  | PRESSURE
  | VOLTAGE
  | CURRENT
  | SPEED
  | HUMIDITY
deriving DecidableEq, Repr

/-- Anomaly severities of the Prisma schema (`AnomalySeverity` enum). -/
inductive AnomalySeverity
  | LOW
  | MEDIUM
  | CRITICAL
deriving DecidableEq, Repr

/-- Equipment status values of the Prisma schema (`EquipmentStatus` enum). -/
inductive EquipmentStatus
  | ONLINE
  | OFFLINE
  | ANOMALY
  | MAINTENANCE
deriving DecidableEq, Repr

/-- Model of the rendered description strings produced by the detector.
`insufficientData got required` records the data interpolated into
the cold-start string of `AnomalyDetector.detect`;
`anomalyDesc` records the arguments of
`SeverityClassifier.generateDescription` (the rendered string is a
deterministic function of them: direction is `value > mean`, the numbers are
formatted with two decimals); `genericAnomalyDetected` is the constant
fallback string used by the recording service. -/
inductive DescriptionModel
  | insufficientData (got : ℕ) (required : ℝ)
  | anomalyDesc (sensorType : SensorType) (value mean zScore : ℝ)
      (unit : Option String)
  | genericAnomalyDetected

namespace StatisticalAnalyzer

/-- Mean of a dataset: returns 0 on the empty list, otherwise sum divided by
length. -/
noncomputable def calculateMean (values : List ℝ) : ℝ :=
  if values.length = 0 then 0
  else values.sum / values.length

/-- Population standard deviation of a dataset: returns 0 on the empty list,
otherwise the square root of the mean of the squared deviations from `avg`
(the supplied mean when present, else `calculateMean`); divides by N, not
N - 1. -/
noncomputable def calculateStandardDeviation
    (values : List ℝ) (mean? : Option ℝ) : ℝ :=
  if values.length = 0 then 0
  else
    let avg := mean?.getD (calculateMean values)
    let squaredDiffs := values.map (fun val => ((val - avg) ^ 2 : ℝ))
    let variance := squaredDiffs.sum / values.length
    Real.sqrt variance

/-- Z-score of a value given mean and standard deviation; 0 when the standard
deviation is 0 to avoid dividing by zero. -/
noncomputable def calculateZScore (value mean stdDev : ℝ) : ℝ :=
  if stdDev = 0 then 0
  else (value - mean) / stdDev

/-- Outlier test: the absolute z-score strictly exceeds the threshold
(default 3). -/
noncomputable def isOutlier (zScore : ℝ) (threshold : ℝ := 3) : Bool :=
  if |zScore| > threshold then true else false

end StatisticalAnalyzer

namespace SeverityClassifier

/-- Severity from the absolute z-score: strictly above 5 is CRITICAL,
strictly above 4 is MEDIUM, everything else LOW. -/
noncomputable def classifySeverity (zScore : ℝ) : AnomalySeverity :=
  let absZScore := |zScore|
  if absZScore > 5 then AnomalySeverity.CRITICAL
  else if absZScore > 4 then AnomalySeverity.MEDIUM
  else AnomalySeverity.LOW

/-- Human-readable anomaly description; the rendered string is a function of
exactly these arguments, recorded by `DescriptionModel.anomalyDesc`. -/
def generateDescription (sensorType : SensorType) (value mean zScore : ℝ)
    (unit : Option String) : DescriptionModel :=
  DescriptionModel.anomalyDesc sensorType value mean zScore unit

end SeverityClassifier

/-- Result record returned by the detector. -/
structure AnomalyDetectionResult where
  isAnomaly : Bool
  zScore : ℝ
  mean : ℝ
  stdDev : ℝ
  threshold : ℝ
  severity : Option AnomalySeverity
  description : Option DescriptionModel

/-- Detector configuration captured by the `AnomalyDetector` class. -/
structure AnomalyDetector where
  threshold : ℝ
  minWindowSize : ℝ

/-- Constructor of `AnomalyDetector` with its default arguments
(threshold 3, minWindowSize 30). -/
def AnomalyDetector.make (threshold : ℝ := 3) (minWindowSize : ℝ := 30) :
    AnomalyDetector :=
  ⟨threshold, minWindowSize⟩

/-- The detect method: below `minWindowSize` samples it returns the
insufficient-data result; otherwise it computes mean, population standard
deviation, z-score and the outlier test, attaching severity and description
exactly when the value is an outlier. -/
noncomputable def AnomalyDetector.detect (d : AnomalyDetector) (value : ℝ)
    (historicalValues : List ℝ) (sensorType : SensorType)
    (unit : Option String) : AnomalyDetectionResult :=
  if (historicalValues.length : ℝ) < d.minWindowSize then
    { isAnomaly := false
      zScore := 0
      mean := 0
      stdDev := 0
      threshold := d.threshold
      severity := none
      description :=
        some (DescriptionModel.insufficientData historicalValues.length
          d.minWindowSize) }
  else
    let mean := StatisticalAnalyzer.calculateMean historicalValues
    let stdDev :=
      StatisticalAnalyzer.calculateStandardDeviation historicalValues
        (some mean)
    let zScore := StatisticalAnalyzer.calculateZScore value mean stdDev
    let isAnomaly := StatisticalAnalyzer.isOutlier zScore d.threshold
    { isAnomaly := isAnomaly
      zScore := zScore
      mean := mean
      stdDev := stdDev
      threshold := d.threshold
      severity :=
        if isAnomaly then some (SeverityClassifier.classifySeverity zScore)
        else none
      description :=
        if isAnomaly then
          some (SeverityClassifier.generateDescription sensorType value mean
            zScore unit)
        else none }

/-- Model of `Number(envVar) || fallback`: an unset (or non-numeric)
environment variable is `none` and yields the fallback; a set value of 0 is
falsy in JavaScript and also yields the fallback. -/
noncomputable def envNumOr (envValue : Option ℝ) (fallback : ℝ) : ℝ :=
  match envValue with
  | none => fallback
  | some x => if x = 0 then fallback else x

/-- The exported detector singleton as a function of the two environment
variables ANOMALY_THRESHOLD_SIGMA and ROLLING_WINDOW_SIZE. -/
noncomputable def anomalyDetectorWithEnv (sigma window : Option ℝ) :
    AnomalyDetector :=
  ⟨envNumOr sigma 3, envNumOr window 100⟩

/-- The exported `anomalyDetector` singleton consumed by the pipeline, with
no environment configuration provided. -/
noncomputable def anomalyDetector : AnomalyDetector :=
  anomalyDetectorWithEnv none none

/-- Timestamps (JavaScript `Date`) as epoch milliseconds. -/
abbrev Time := Int

/-- A persisted sensor reading (`SensorEvent` row). -/
structure SensorEvent where
  time : Time
  equipmentId : String
  sensorType : SensorType
  measuredValue : ℝ
  unit : Option String

/-- A persisted anomaly (`Anomaly` row); the generated row id is not
modelled. -/
structure AnomalyRow where
  time : Time
  equipmentId : String
  sensorType : SensorType
  severity : AnomalySeverity
  description : DescriptionModel
  detectedValue : ℝ
  threshold : ℝ
  zScore : ℝ
  resolved : Bool

/-- An `Equipment` row; the display fields (name, category, location) are
never read or written by the pipeline and are omitted. -/
structure Equipment where
  id : String
  status : EquipmentStatus
  lastHeartbeat : Time

/-- The database state seen by the pipeline: the three tables as lists, each
`create` appending at the end. -/
structure DbState where
  events : List SensorEvent
  anomalies : List AnomalyRow
  equipment : List Equipment

/-- EquipmentRepository.updateStatus: sets the status of the row with the
given id and refreshes its `lastHeartbeat` to the current time. -/
def updateEquipmentStatus (rows : List Equipment) (id : String)
    (status : EquipmentStatus) (now : Time) : List Equipment :=
  rows.map (fun e =>
    if e.id = id then { e with status := status, lastHeartbeat := now }
    else e)

/-- EquipmentRepository.update with a `lastHeartbeat` payload: sets only the
heartbeat of the row with the given id. -/
def updateEquipmentHeartbeat (rows : List Equipment) (id : String)
    (heartbeat : Time) : List Equipment :=
  rows.map (fun e =>
    if e.id = id then { e with lastHeartbeat := heartbeat } else e)

/-- SensorEventRepository.getRollingWindow: the rows for this equipment and
sensor type, ordered by time descending, truncated to `windowSize`.
The sort key mirrors the `orderBy time desc` of the query. -/
def getRollingWindow (events : List SensorEvent) (equipmentId : String)
    (sensorType : SensorType) (windowSize : ℕ) : List SensorEvent :=
  ((events.filter (fun e =>
      e.equipmentId = equipmentId && e.sensorType = sensorType)).mergeSort
    (fun a b => b.time ≤ a.time)).take windowSize

/-- The rolling window size consumed by the detection service:
`Number(ROLLING_WINDOW_SIZE) || 100`, which is 100 with no environment
configuration (used as the `take` count of the query). -/
def rollingWindowCount : ℕ := 100

/-- AnomalyDetectionService.recordAnomaly: builds the `Anomaly` row from the
detection result (severity from the guarded non-null assertion, description
with the constant fallback, `resolved := false`) and appends it. -/
noncomputable def recordAnomaly (db : DbState) (equipmentId : String)
    (sensorType : SensorType) (value : ℝ) (detection : AnomalyDetectionResult)
    (timestamp : Time) : DbState :=
  { db with
    anomalies := db.anomalies ++
      [{ time := timestamp
         equipmentId := equipmentId
         sensorType := sensorType
         severity := detection.severity.getD AnomalySeverity.LOW
         description :=
           detection.description.getD DescriptionModel.genericAnomalyDetected
         detectedValue := value
         threshold := detection.threshold
         zScore := detection.zScore
         resolved := false }] }

/-- AnomalyDetectionService.processSensorReading: fetch the rolling window,
run the detector singleton, and, when the result is an anomaly carrying a
severity, record the anomaly and force the equipment status to ANOMALY.
`now` is the clock value used both for the `timestamp || new Date()`
default and for the heartbeat refresh inside `updateStatus`. -/
noncomputable def processSensorReading (db : DbState) (now : Time)
    (equipmentId : String) (sensorType : SensorType) (value : ℝ)
    (unit : Option String) (timestamp : Option Time) :
    AnomalyDetectionResult × DbState :=
  let historicalReadings :=
    getRollingWindow db.events equipmentId sensorType rollingWindowCount
  let historicalValues := historicalReadings.map (fun r => r.measuredValue)
  let detectionResult :=
    anomalyDetector.detect value historicalValues sensorType unit
  if detectionResult.isAnomaly && detectionResult.severity.isSome then
    let db1 := recordAnomaly db equipmentId sensorType value detectionResult
      (timestamp.getD now)
    let db2 := { db1 with
      equipment :=
        updateEquipmentStatus db1.equipment equipmentId
          EquipmentStatus.ANOMALY now }
    (detectionResult, db2)
  else
    (detectionResult, db)

/-- Backoff configuration of a BullMQ job. -/
structure BackoffOptions where
  backoffType : String
  delay : ℕ
deriving DecidableEq

/-- The per-job options a queue applies by default (`defaultJobOptions`
together with the per-queue `priority` override). -/
structure JobOptions where
  attempts : ℕ
  backoff : BackoffOptions
  removeOnCompleteAge : ℕ
  removeOnCompleteCount : ℕ
  removeOnFailAge : ℕ
  priority : Option ℕ
deriving DecidableEq

/-- The shared `defaultQueueOptions.defaultJobOptions`: 3 attempts,
exponential backoff from a 2000 ms base, completed jobs kept one hour or up
to 1000 jobs, failed jobs kept 24 hours for debugging. -/
def defaultJobOptions : JobOptions :=
  { attempts := 3
    backoff := { backoffType := "exponential", delay := 2000 }
    removeOnCompleteAge := 3600
    removeOnCompleteCount := 1000
    removeOnFailAge := 86400
    priority := none }

/-- Job options of the sensor-data queue (priority 1). -/
def sensorDataQueueOptions : JobOptions :=
  { defaultJobOptions with priority := some 1 }

/-- Job options of the batch-sensor-data queue (priority 2). -/
def batchSensorDataQueueOptions : JobOptions :=
  { defaultJobOptions with priority := some 2 }

/-- Job options of the anomaly-detection queue (priority 1). -/
def anomalyDetectionQueueOptions : JobOptions :=
  { defaultJobOptions with priority := some 1 }

/-- Job options of the data-aggregation queue (priority 3). -/
def dataAggregationQueueOptions : JobOptions :=
  { defaultJobOptions with priority := some 3 }

/-- Worker scheduling options: concurrency and the rate limiter
(at most `limiterMax` jobs per `limiterDuration` milliseconds). -/
structure WorkerOptions where
  concurrency : ℕ
  limiterMax : ℕ
  limiterDuration : ℕ
deriving DecidableEq

/-- Options of the Stage-2 sensor-data worker: concurrency 10, at most 100
jobs per second. -/
def sensorDataWorkerOptions : WorkerOptions :=
  { concurrency := 10, limiterMax := 100, limiterDuration := 1000 }

/-- Options of the Stage-1 batch worker: concurrency 3, at most 20 batch
jobs per second. -/
def batchSensorDataWorkerOptions : WorkerOptions :=
  { concurrency := 3, limiterMax := 20, limiterDuration := 1000 }

/-- Options of the Stage-3 anomaly-detection worker: concurrency 5, at most
50 jobs per second. -/
def anomalyDetectionWorkerOptions : WorkerOptions :=
  { concurrency := 5, limiterMax := 50, limiterDuration := 1000 }

/-- Payload of a Stage-2 sensor-data job. -/
structure SensorDataJobData where
  equipmentId : String
  sensorType : SensorType
  value : ℝ
  unit : Option String
  timestamp : Time

/-- Payload of a Stage-3 anomaly-detection job. -/
structure AnomalyDetectionJobData where
  equipmentId : String
  sensorType : SensorType
  value : ℝ
  unit : Option String
  timestamp : Time

/-- The world visible to the Stage-2 worker: the database plus the
anomaly-detection queue, each enqueued payload paired with the priority it
was added with. -/
structure WorldState where
  db : DbState
  detectionQueue : List (AnomalyDetectionJobData × ℕ)

/-- The three external operations the Stage-2 worker performs, as supplied
by the store and the broker (both are external collaborators and may fail;
a failure is the thrown error message). -/
structure Stage2Ops where
  createSensorEvent : SensorEvent → WorldState → Except String WorldState
  updateEquipment : String → Time → WorldState → Except String WorldState
  enqueueDetection :
    AnomalyDetectionJobData → ℕ → WorldState → Except String WorldState

/-- The fault-free implementations of the Stage-2 operations on the modelled
world: append the event row, refresh the heartbeat of the equipment row,
append the detection payload to the queue. -/
def pureStage2Ops : Stage2Ops where
  createSensorEvent := fun ev w =>
    Except.ok { w with db := { w.db with events := w.db.events ++ [ev] } }
  updateEquipment := fun id heartbeat w =>
    Except.ok { w with db :=
      { w.db with
        equipment := updateEquipmentHeartbeat w.db.equipment id heartbeat } }
  enqueueDetection := fun jobData priority w =>
    Except.ok { w with detectionQueue := w.detectionQueue ++ [(jobData, priority)] }

/-- The Stage-2 worker body `processSensorData`: persist the SensorEvent,
update the equipment heartbeat, then enqueue exactly one detection job (at
priority 1) carrying the same fields; any thrown error is rethrown, so a
failing step aborts the remaining steps and fails the job. -/
def processSensorData (ops : Stage2Ops) (job : SensorDataJobData)
    (w : WorldState) : Except String WorldState :=
  match ops.createSensorEvent
      { time := job.timestamp
        equipmentId := job.equipmentId
        sensorType := job.sensorType
        measuredValue := job.value
        unit := job.unit } w with
  | Except.error e => Except.error e
  | Except.ok w1 =>
    match ops.updateEquipment job.equipmentId job.timestamp w1 with
    | Except.error e => Except.error e
    | Except.ok w2 =>
      ops.enqueueDetection
        { equipmentId := job.equipmentId
          sensorType := job.sensorType
          value := job.value
          unit := job.unit
          timestamp := job.timestamp } 1 w2

/-! ## Helper lemmas about the detector -/

lemma calculateMean_eq_sum_div (H : List ℝ) :
    StatisticalAnalyzer.calculateMean H = H.sum / H.length := by
  rcases H with _ | ⟨x, xs⟩
  · simp [StatisticalAnalyzer.calculateMean]
  · simp [StatisticalAnalyzer.calculateMean]

lemma calculateStandardDeviation_eq (H : List ℝ) (m : ℝ) :
    StatisticalAnalyzer.calculateStandardDeviation H (some m) =
      Real.sqrt ((H.map (fun x => (x - m) ^ 2)).sum / H.length) := by
  rcases H with _ | ⟨x, xs⟩
  · simp [StatisticalAnalyzer.calculateStandardDeviation]
  · simp [StatisticalAnalyzer.calculateStandardDeviation]

lemma detect_of_lt {d : AnomalyDetector} {H : List ℝ} (v : ℝ) (s : SensorType)
    (u : Option String) (h : (H.length : ℝ) < d.minWindowSize) :
    d.detect v H s u =
      { isAnomaly := false
        zScore := 0
        mean := 0
        stdDev := 0
        threshold := d.threshold
        severity := none
        description :=
          some (DescriptionModel.insufficientData H.length d.minWindowSize) } := by
  simp only [AnomalyDetector.detect]
  rw [if_pos h]

lemma detect_of_ge {d : AnomalyDetector} {H : List ℝ} (v : ℝ) (s : SensorType)
    (u : Option String) (h : ¬ (H.length : ℝ) < d.minWindowSize) :
    d.detect v H s u =
      { isAnomaly :=
          StatisticalAnalyzer.isOutlier
            (StatisticalAnalyzer.calculateZScore v
              (StatisticalAnalyzer.calculateMean H)
              (StatisticalAnalyzer.calculateStandardDeviation H
                (some (StatisticalAnalyzer.calculateMean H)))) d.threshold
        zScore :=
          StatisticalAnalyzer.calculateZScore v
            (StatisticalAnalyzer.calculateMean H)
            (StatisticalAnalyzer.calculateStandardDeviation H
              (some (StatisticalAnalyzer.calculateMean H)))
        mean := StatisticalAnalyzer.calculateMean H
        stdDev :=
          StatisticalAnalyzer.calculateStandardDeviation H
            (some (StatisticalAnalyzer.calculateMean H))
        threshold := d.threshold
        severity :=
          if StatisticalAnalyzer.isOutlier
              (StatisticalAnalyzer.calculateZScore v
                (StatisticalAnalyzer.calculateMean H)
                (StatisticalAnalyzer.calculateStandardDeviation H
                  (some (StatisticalAnalyzer.calculateMean H)))) d.threshold then
            some (SeverityClassifier.classifySeverity
              (StatisticalAnalyzer.calculateZScore v
                (StatisticalAnalyzer.calculateMean H)
                (StatisticalAnalyzer.calculateStandardDeviation H
                  (some (StatisticalAnalyzer.calculateMean H)))))
          else none
        description :=
          if StatisticalAnalyzer.isOutlier
              (StatisticalAnalyzer.calculateZScore v
                (StatisticalAnalyzer.calculateMean H)
                (StatisticalAnalyzer.calculateStandardDeviation H
                  (some (StatisticalAnalyzer.calculateMean H)))) d.threshold then
            some (SeverityClassifier.generateDescription s v
              (StatisticalAnalyzer.calculateMean H)
              (StatisticalAnalyzer.calculateZScore v
                (StatisticalAnalyzer.calculateMean H)
                (StatisticalAnalyzer.calculateStandardDeviation H
                  (some (StatisticalAnalyzer.calculateMean H)))) u)
          else none } := by
  simp only [AnomalyDetector.detect]
  rw [if_neg h]

lemma severity_isSome_of_shape (b : Bool) (z m sd t : ℝ)
    (sev : AnomalySeverity) (desc : Option DescriptionModel) :
    (AnomalyDetectionResult.mk b z m sd t
      (if b then some sev else none) desc).severity.isSome = b := by
  cases b
  · rfl
  · rfl

lemma detect_severity_isSome (d : AnomalyDetector) (v : ℝ) (H : List ℝ)
    (s : SensorType) (u : Option String) :
    (d.detect v H s u).severity.isSome = (d.detect v H s u).isAnomaly := by
  by_cases h : (H.length : ℝ) < d.minWindowSize
  · rw [detect_of_lt v s u h]
    rfl
  · rw [detect_of_ge v s u h]
    exact severity_isSome_of_shape _ _ _ _ _ _ _

lemma detect_guard_eq (d : AnomalyDetector) (v : ℝ) (H : List ℝ)
    (s : SensorType) (u : Option String) :
    ((d.detect v H s u).isAnomaly && (d.detect v H s u).severity.isSome) =
      (d.detect v H s u).isAnomaly := by
  rw [detect_severity_isSome]
  exact Bool.and_self _

lemma isOutlier_eq_true_iff (z t : ℝ) :
    StatisticalAnalyzer.isOutlier z t = true ↔ |z| > t := by
  unfold StatisticalAnalyzer.isOutlier
  by_cases hz : |z| > t
  · simp [hz]
  · simp [hz]

/-! ## Claims about the statistical detector -/

/-- C2: for every value and history at least as long as the detector's
minimum window, `detect` computes the mean as the arithmetic average of the
history, the standard deviation as the population standard deviation
(dividing by N), the z-score as 0 when the standard deviation is 0 and
otherwise as (value - mean) / stdDev, and flags an anomaly exactly when the
absolute z-score strictly exceeds the configured threshold; moreover
`calculateZScore x m 0 = 0` for all x and m. -/
theorem detect_statistics_spec (d : AnomalyDetector) (v : ℝ) (H : List ℝ)
    (s : SensorType) (u : Option String)
    (h : d.minWindowSize ≤ (H.length : ℝ)) :
    (d.detect v H s u).mean = H.sum / H.length ∧
    (d.detect v H s u).stdDev =
      Real.sqrt ((H.map (fun x => (x - H.sum / H.length) ^ 2)).sum /
        H.length) ∧
    (d.detect v H s u).zScore =
      (if (d.detect v H s u).stdDev = 0 then 0
       else (v - H.sum / H.length) / (d.detect v H s u).stdDev) ∧
    ((d.detect v H s u).isAnomaly = true ↔
      |(d.detect v H s u).zScore| > d.threshold) ∧
    (∀ x m : ℝ, StatisticalAnalyzer.calculateZScore x m 0 = 0) := by
  have h' : ¬ (H.length : ℝ) < d.minWindowSize := not_lt.mpr h
  rw [detect_of_ge v s u h']
  refine ⟨?_, ?_, ?_, ?_, ?_⟩
  · simp [calculateMean_eq_sum_div]
  · simp only [calculateMean_eq_sum_div]
    exact calculateStandardDeviation_eq H _
  · simp [StatisticalAnalyzer.calculateZScore, calculateMean_eq_sum_div]
  · exact isOutlier_eq_true_iff _ _
  · intro x m
    simp [StatisticalAnalyzer.calculateZScore]

/-- Witness for C2 at a concrete input: a history of thirty zeros meets the
default minimum window, and the computed mean is the arithmetic average. -/
theorem detect_statistics_spec_witness :
    (AnomalyDetector.make.detect 1 (List.replicate 30 (0 : ℝ))
        SensorType.TEMPERATURE none).mean =
      (List.replicate 30 (0 : ℝ)).sum / (List.replicate 30 (0 : ℝ)).length :=
  (detect_statistics_spec AnomalyDetector.make 1 (List.replicate 30 (0 : ℝ))
    SensorType.TEMPERATURE none
    (by norm_num [AnomalyDetector.make])).1

/-- C3: for every value and history strictly shorter than the detector's
minimum window, `detect` returns the insufficient-data result: no anomaly,
no severity, zero statistics, the configured threshold, and a description
recording the insufficient sample count. -/
theorem detect_insufficient_spec (d : AnomalyDetector) (v : ℝ) (H : List ℝ)
    (s : SensorType) (u : Option String)
    (h : (H.length : ℝ) < d.minWindowSize) :
    d.detect v H s u =
      { isAnomaly := false
        zScore := 0
        mean := 0
        stdDev := 0
        threshold := d.threshold
        severity := none
        description :=
          some (DescriptionModel.insufficientData H.length
            d.minWindowSize) } :=
  detect_of_lt v s u h

/-- Witness for C3 at a concrete input: the empty history is below the
default minimum window of thirty, and the result is the insufficient-data
record. -/
theorem detect_insufficient_spec_witness :
    AnomalyDetector.make.detect 5 ([] : List ℝ) SensorType.PRESSURE none =
      { isAnomaly := false
        zScore := 0
        mean := 0
        stdDev := 0
        threshold := 3
        severity := none
        description := some (DescriptionModel.insufficientData 0 30) } := by
  have := detect_insufficient_spec AnomalyDetector.make 5 ([] : List ℝ)
    SensorType.PRESSURE none (by norm_num [AnomalyDetector.make])
  simpa [AnomalyDetector.make] using this

/-- Severity rank in the order LOW < MEDIUM < CRITICAL. -/
def severityRank : AnomalySeverity → ℕ
  | AnomalySeverity.LOW => 0
  | AnomalySeverity.MEDIUM => 1
  | AnomalySeverity.CRITICAL => 2

lemma classifySeverity_cases (z : ℝ) :
    SeverityClassifier.classifySeverity z =
      (if |z| > 5 then AnomalySeverity.CRITICAL
       else if |z| > 4 then AnomalySeverity.MEDIUM
       else AnomalySeverity.LOW) := rfl

/-- C4: the severity classifier maps absolute z-scores strictly above 5 to
CRITICAL, strictly above 4 and at most 5 to MEDIUM, and strictly above 3 and
at most 4 to LOW — all comparisons strict, so values exactly at the band
edges fall to the lower band — and the classification is monotone in the
absolute z-score on the anomalous region. -/
theorem classifySeverity_spec :
    (∀ z : ℝ, 5 < |z| →
      SeverityClassifier.classifySeverity z = AnomalySeverity.CRITICAL) ∧
    (∀ z : ℝ, 4 < |z| → |z| ≤ 5 →
      SeverityClassifier.classifySeverity z = AnomalySeverity.MEDIUM) ∧
    (∀ z : ℝ, 3 < |z| → |z| ≤ 4 →
      SeverityClassifier.classifySeverity z = AnomalySeverity.LOW) ∧
    (∀ z₁ z₂ : ℝ, 3 < |z₁| → 3 < |z₂| → |z₁| ≤ |z₂| →
      severityRank (SeverityClassifier.classifySeverity z₁) ≤
        severityRank (SeverityClassifier.classifySeverity z₂)) := by
  refine ⟨?_, ?_, ?_, ?_⟩
  · intro z hz
    rw [classifySeverity_cases, if_pos hz]
  · intro z hz4 hz5
    rw [classifySeverity_cases, if_neg (by linarith), if_pos hz4]
  · intro z hz3 hz4
    rw [classifySeverity_cases, if_neg (by linarith), if_neg (by linarith)]
  · intro z₁ z₂ h₁ h₂ hle
    rw [classifySeverity_cases, classifySeverity_cases]
    by_cases ha : |z₁| > 5
    · rw [if_pos ha, if_pos (by linarith)]
    · by_cases hb : |z₁| > 4
      · rw [if_neg ha, if_pos hb]
        by_cases hc : |z₂| > 5
        · rw [if_pos hc]
          simp [severityRank]
        · rw [if_neg hc, if_pos (by linarith)]
      · rw [if_neg ha, if_neg hb]
        by_cases hc : |z₂| > 5
        · rw [if_pos hc]
          simp [severityRank]
        · rw [if_neg hc]
          by_cases hd : |z₂| > 4
          · rw [if_pos hd]
            simp [severityRank]
          · rw [if_neg hd]

/-- Witness for C4 at concrete inputs: 6, 4.5 and 3.5 land in CRITICAL,
MEDIUM and LOW respectively, and monotonicity holds between 3.5 and 6. -/
theorem classifySeverity_spec_witness :
    SeverityClassifier.classifySeverity 6 = AnomalySeverity.CRITICAL ∧
    SeverityClassifier.classifySeverity 4.5 = AnomalySeverity.MEDIUM ∧
    SeverityClassifier.classifySeverity 3.5 = AnomalySeverity.LOW ∧
    severityRank (SeverityClassifier.classifySeverity 3.5) ≤
      severityRank (SeverityClassifier.classifySeverity 6) :=
  ⟨classifySeverity_spec.1 6 (by rw [abs_of_nonneg] <;> norm_num),
   classifySeverity_spec.2.1 4.5 (by rw [abs_of_nonneg] <;> norm_num)
     (by rw [abs_of_nonneg] <;> norm_num),
   classifySeverity_spec.2.2.1 3.5 (by rw [abs_of_nonneg] <;> norm_num)
     (by rw [abs_of_nonneg] <;> norm_num),
   classifySeverity_spec.2.2.2 3.5 6 (by rw [abs_of_nonneg] <;> norm_num)
     (by rw [abs_of_nonneg] <;> norm_num)
     (by rw [abs_of_nonneg, abs_of_nonneg] <;> norm_num)⟩

lemma calculateMean_perm {H H' : List ℝ} (hp : H.Perm H') :
    StatisticalAnalyzer.calculateMean H =
      StatisticalAnalyzer.calculateMean H' := by
  unfold StatisticalAnalyzer.calculateMean
  rw [hp.length_eq, hp.sum_eq]

lemma calculateStandardDeviation_perm {H H' : List ℝ} (hp : H.Perm H')
    (m : ℝ) :
    StatisticalAnalyzer.calculateStandardDeviation H (some m) =
      StatisticalAnalyzer.calculateStandardDeviation H' (some m) := by
  unfold StatisticalAnalyzer.calculateStandardDeviation
  simp only [Option.getD_some]
  rw [hp.length_eq, (hp.map (fun val => ((val - m) ^ 2 : ℝ))).sum_eq]

/-- C5: `detect` is invariant under reordering of its history argument — a
permutation of the historical values changes neither the branch taken nor
any field of the result. -/
theorem detect_perm_invariant (d : AnomalyDetector) (v : ℝ) (s : SensorType)
    (u : Option String) (H H' : List ℝ) (hp : H.Perm H') :
    d.detect v H s u = d.detect v H' s u := by
  by_cases h : (H.length : ℝ) < d.minWindowSize
  · have h' : (H'.length : ℝ) < d.minWindowSize := by
      rw [← hp.length_eq]; exact h
    rw [detect_of_lt v s u h, detect_of_lt v s u h', hp.length_eq]
  · have h' : ¬ (H'.length : ℝ) < d.minWindowSize := by
      rw [← hp.length_eq]; exact h
    rw [detect_of_ge v s u h, detect_of_ge v s u h', calculateMean_perm hp,
      calculateStandardDeviation_perm hp]

/-- Witness for C5 at a concrete input: swapping a two-element history does
not change the detection result. -/
theorem detect_perm_invariant_witness :
    AnomalyDetector.make.detect 7 [(1 : ℝ), 2] SensorType.VIBRATION none =
      AnomalyDetector.make.detect 7 [(2 : ℝ), 1] SensorType.VIBRATION none :=
  detect_perm_invariant AnomalyDetector.make 7 SensorType.VIBRATION none
    [(1 : ℝ), 2] [(2 : ℝ), 1] (List.Perm.swap 2 1 [])

/-- C10: invariants of every result of `detect` — the severity field is
present exactly when `isAnomaly` is true (insufficient-data results carry a
description but no severity), the threshold field always equals the
configured threshold, and therefore the downstream guard
`isAnomaly && severity.isSome` is equivalent to `isAnomaly` alone. -/
theorem detect_result_invariants (d : AnomalyDetector) (v : ℝ) (H : List ℝ)
    (s : SensorType) (u : Option String) :
    ((d.detect v H s u).severity.isSome = true ↔
      (d.detect v H s u).isAnomaly = true) ∧
    (d.detect v H s u).threshold = d.threshold ∧
    ((d.detect v H s u).isAnomaly && (d.detect v H s u).severity.isSome) =
      (d.detect v H s u).isAnomaly ∧
    ((H.length : ℝ) < d.minWindowSize →
      (d.detect v H s u).severity = none ∧
      (d.detect v H s u).description.isSome = true) := by
  refine ⟨?_, ?_, detect_guard_eq d v H s u, ?_⟩
  · rw [detect_severity_isSome]
  · by_cases h : (H.length : ℝ) < d.minWindowSize
    · rw [detect_of_lt v s u h]
    · rw [detect_of_ge v s u h]
  · intro h
    rw [detect_of_lt v s u h]
    exact ⟨rfl, rfl⟩

/-- Witness for C10 at a concrete input: on the empty history the result has
no severity, a present description and the default threshold. -/
theorem detect_result_invariants_witness :
    (AnomalyDetector.make.detect 0 ([] : List ℝ)
        SensorType.CURRENT none).severity = none ∧
    (AnomalyDetector.make.detect 0 ([] : List ℝ)
        SensorType.CURRENT none).threshold = 3 :=
  ⟨((detect_result_invariants AnomalyDetector.make 0 [] SensorType.CURRENT
      none).2.2.2 (by norm_num [AnomalyDetector.make])).1,
   (detect_result_invariants AnomalyDetector.make 0 [] SensorType.CURRENT
      none).2.1⟩

/-- C1 counterexample: with no environment configuration the exported
pipeline singleton has minWindowSize 100 (the ROLLING_WINDOW_SIZE fallback),
so a history of 30 samples — which the claim says is enough for the
statistical test — still produces the insufficient-data result. -/
theorem pipeline_min_window_counterexample :
    (30 : ℝ) ≤ ((List.replicate 30 (0 : ℝ)).length : ℝ) ∧
    (anomalyDetector.detect 0 (List.replicate 30 (0 : ℝ))
        SensorType.TEMPERATURE none).isAnomaly = false ∧
    (anomalyDetector.detect 0 (List.replicate 30 (0 : ℝ))
        SensorType.TEMPERATURE none).description =
      some (DescriptionModel.insufficientData 30 100) := by
  have h : (((List.replicate 30 (0 : ℝ)).length : ℝ)) <
      anomalyDetector.minWindowSize := by
    simp only [anomalyDetector, anomalyDetectorWithEnv, envNumOr,
      List.length_replicate]
    norm_num
  refine ⟨by norm_num, ?_, ?_⟩
  · rw [detect_of_lt 0 SensorType.TEMPERATURE none h]
  · rw [detect_of_lt 0 SensorType.TEMPERATURE none h]
    simp [anomalyDetector, anomalyDetectorWithEnv, envNumOr]

/-- C1 amended: the constructor defaults of `AnomalyDetector` are threshold
3 and minWindowSize 30, but the exported pipeline singleton passes the
ROLLING_WINDOW_SIZE fallback as its minimum window, so with no environment
configuration the singleton has threshold 3 and minWindowSize 100: for
histories shorter than 100 it returns the insufficient-data result, and only
from 100 samples on does it run the statistical test (computing the mean and
comparing the absolute z-score against the threshold 3). -/
theorem pipeline_min_window_spec :
    AnomalyDetector.make = { threshold := 3, minWindowSize := 30 } ∧
    anomalyDetector.threshold = 3 ∧
    anomalyDetector.minWindowSize = 100 ∧
    (∀ (v : ℝ) (H : List ℝ) (s : SensorType) (u : Option String),
      ((H.length : ℝ) < 100 →
        (anomalyDetector.detect v H s u).isAnomaly = false ∧
        (anomalyDetector.detect v H s u).description =
          some (DescriptionModel.insufficientData H.length 100)) ∧
      (100 ≤ (H.length : ℝ) →
        (anomalyDetector.detect v H s u).mean = H.sum / H.length ∧
        ((anomalyDetector.detect v H s u).isAnomaly = true ↔
          3 < |(anomalyDetector.detect v H s u).zScore|))) := by
  refine ⟨rfl, rfl, rfl, ?_⟩
  intro v H s u
  constructor
  · intro h
    have h' : ((H.length : ℝ)) < anomalyDetector.minWindowSize := by
      simpa [anomalyDetector, anomalyDetectorWithEnv, envNumOr] using h
    rw [detect_of_lt v s u h']
    refine ⟨rfl, ?_⟩
    simp [anomalyDetector, anomalyDetectorWithEnv, envNumOr]
  · intro h
    have h' : ¬ ((H.length : ℝ)) < anomalyDetector.minWindowSize := by
      simp only [anomalyDetector, anomalyDetectorWithEnv, envNumOr]
      exact not_lt.mpr h
    rw [detect_of_ge v s u h']
    exact ⟨calculateMean_eq_sum_div H, isOutlier_eq_true_iff _ _⟩

/-- Witness for C1 (amended) at concrete inputs: with 100 samples the
singleton computes the arithmetic mean, and with 10 samples it reports no
anomaly. -/
theorem pipeline_min_window_spec_witness :
    (anomalyDetector.detect 0 (List.replicate 100 (0 : ℝ))
        SensorType.VOLTAGE none).mean =
      (List.replicate 100 (0 : ℝ)).sum /
        (List.replicate 100 (0 : ℝ)).length ∧
    (anomalyDetector.detect 1 (List.replicate 10 (0 : ℝ))
        SensorType.SPEED none).isAnomaly = false :=
  ⟨((pipeline_min_window_spec.2.2.2 0 (List.replicate 100 (0 : ℝ))
      SensorType.VOLTAGE none).2 (by norm_num)).1,
   ((pipeline_min_window_spec.2.2.2 1 (List.replicate 10 (0 : ℝ))
      SensorType.SPEED none).1 (by norm_num)).1⟩

/-- C6: processing a reading is a no-op on the database unless the detection
result is an anomaly; on an anomaly it appends exactly one new Anomaly row —
built from the detected value, threshold, z-score and description, with
`resolved := false`, never touching prior rows — and forces the equipment
status to ANOMALY while refreshing its heartbeat to the current time. -/
theorem processSensorReading_spec (db : DbState) (now : Time) (eid : String)
    (st : SensorType) (v : ℝ) (u : Option String) (ts : Option Time) :
    processSensorReading db now eid st v u ts =
      (let r := anomalyDetector.detect v
          ((getRollingWindow db.events eid st rollingWindowCount).map
            (fun e => e.measuredValue)) st u
       (r,
        if r.isAnomaly then
          { events := db.events
            anomalies := db.anomalies ++
              [{ time := ts.getD now
                 equipmentId := eid
                 sensorType := st
                 severity := r.severity.getD AnomalySeverity.LOW
                 description :=
                   r.description.getD DescriptionModel.genericAnomalyDetected
                 detectedValue := v
                 threshold := r.threshold
                 zScore := r.zScore
                 resolved := false }]
            equipment := db.equipment.map (fun e =>
              if e.id = eid then
                { e with status := EquipmentStatus.ANOMALY,
                         lastHeartbeat := now }
              else e) }
        else db)) := by
  simp only [processSensorReading, recordAnomaly, updateEquipmentStatus]
  rw [detect_guard_eq]
  by_cases hb :
      (anomalyDetector.detect v
        ((getRollingWindow db.events eid st rollingWindowCount).map
          (fun e => e.measuredValue)) st u).isAnomaly = true
  · rw [if_pos hb, if_pos hb]
  · rw [if_neg hb, if_neg hb]

/-- C7: the Stage-2 reading processor first persists the SensorEvent, then
updates the equipment heartbeat, then enqueues exactly one Stage-3 detection
job carrying the same equipmentId, sensorType, value, unit and timestamp,
unmodified (at priority 1); and if any step throws, the error propagates as
the job's failure and no later step runs. -/
theorem processSensorData_spec :
    (∀ (job : SensorDataJobData) (w : WorldState),
      processSensorData pureStage2Ops job w =
        Except.ok
          { db :=
              { events := w.db.events ++
                  [{ time := job.timestamp
                     equipmentId := job.equipmentId
                     sensorType := job.sensorType
                     measuredValue := job.value
                     unit := job.unit }]
                anomalies := w.db.anomalies
                equipment := w.db.equipment.map (fun e =>
                  if e.id = job.equipmentId then
                    { e with lastHeartbeat := job.timestamp }
                  else e) }
            detectionQueue := w.detectionQueue ++
              [({ equipmentId := job.equipmentId
                  sensorType := job.sensorType
                  value := job.value
                  unit := job.unit
                  timestamp := job.timestamp }, 1)] }) ∧
    (∀ (ops : Stage2Ops) (job : SensorDataJobData) (w : WorldState)
        (e : String),
      ops.createSensorEvent
          { time := job.timestamp
            equipmentId := job.equipmentId
            sensorType := job.sensorType
            measuredValue := job.value
            unit := job.unit } w = Except.error e →
      processSensorData ops job w = Except.error e) ∧
    (∀ (ops : Stage2Ops) (job : SensorDataJobData) (w w₁ : WorldState)
        (e : String),
      ops.createSensorEvent
          { time := job.timestamp
            equipmentId := job.equipmentId
            sensorType := job.sensorType
            measuredValue := job.value
            unit := job.unit } w = Except.ok w₁ →
      ops.updateEquipment job.equipmentId job.timestamp w₁ =
        Except.error e →
      processSensorData ops job w = Except.error e) ∧
    (∀ (ops : Stage2Ops) (job : SensorDataJobData) (w w₁ w₂ : WorldState)
        (e : String),
      ops.createSensorEvent
          { time := job.timestamp
            equipmentId := job.equipmentId
            sensorType := job.sensorType
            measuredValue := job.value
            unit := job.unit } w = Except.ok w₁ →
      ops.updateEquipment job.equipmentId job.timestamp w₁ =
        Except.ok w₂ →
      ops.enqueueDetection
          { equipmentId := job.equipmentId
            sensorType := job.sensorType
            value := job.value
            unit := job.unit
            timestamp := job.timestamp } 1 w₂ = Except.error e →
      processSensorData ops job w = Except.error e) := by
  refine ⟨?_, ?_, ?_, ?_⟩
  · intro job w
    simp [processSensorData, pureStage2Ops, updateEquipmentHeartbeat,
      Except.bind]
  · intro ops job w e h₁
    simp [processSensorData, h₁, Except.bind]
  · intro ops job w w₁ e h₁ h₂
    simp [processSensorData, h₁, h₂, Except.bind]
  · intro ops job w w₁ w₂ e h₁ h₂ h₃
    simp [processSensorData, h₁, h₂, h₃, Except.bind]

/-- Witness for C7 at a concrete input: with a broker whose store write
fails, the worker fails the job with the thrown error. -/
theorem processSensorData_spec_witness :
    processSensorData
      { createSensorEvent := fun _ _ => Except.error "store down"
        updateEquipment := fun _ _ w => Except.ok w
        enqueueDetection := fun _ _ w => Except.ok w }
      { equipmentId := "eq1"
        sensorType := SensorType.TEMPERATURE
        value := 0
        unit := none
        timestamp := 0 }
      { db := { events := [], anomalies := [], equipment := [] }
        detectionQueue := [] } = Except.error "store down" :=
  processSensorData_spec.2.1 _ _ _ _ rfl

/-- C8: every queue's default job options give each job exactly 3 attempts
with exponential backoff from a 2000 ms base delay, and permanently failed
jobs are retained for a fixed 24-hour diagnostic window rather than dropped;
the finite attempt count means no job retries indefinitely. -/
theorem queue_retry_policy_spec :
    (sensorDataQueueOptions.attempts = 3 ∧
      batchSensorDataQueueOptions.attempts = 3 ∧
      anomalyDetectionQueueOptions.attempts = 3 ∧
      dataAggregationQueueOptions.attempts = 3) ∧
    (sensorDataQueueOptions.backoff =
        { backoffType := "exponential", delay := 2000 } ∧
      batchSensorDataQueueOptions.backoff =
        { backoffType := "exponential", delay := 2000 } ∧
      anomalyDetectionQueueOptions.backoff =
        { backoffType := "exponential", delay := 2000 } ∧
      dataAggregationQueueOptions.backoff =
        { backoffType := "exponential", delay := 2000 }) ∧
    (sensorDataQueueOptions.removeOnFailAge = 86400 ∧
      batchSensorDataQueueOptions.removeOnFailAge = 86400 ∧
      anomalyDetectionQueueOptions.removeOnFailAge = 86400 ∧
      dataAggregationQueueOptions.removeOnFailAge = 86400) := by
  refine ⟨⟨rfl, rfl, rfl, rfl⟩, ⟨rfl, rfl, rfl, rfl⟩, rfl, rfl, rfl, rfl⟩

/-- C9 counterexample: the anomaly-detection queue and the sensor-data queue
are both configured at priority 1, so detection jobs are not at a strictly
higher priority (strictly lower priority number) than sensor-data jobs. -/
theorem detection_priority_counterexample :
    anomalyDetectionQueueOptions.priority = some 1 ∧
    sensorDataQueueOptions.priority = some 1 ∧
    ¬ (anomalyDetectionQueueOptions.priority.getD 0 <
        sensorDataQueueOptions.priority.getD 0) := by
  refine ⟨rfl, rfl, ?_⟩
  decide

/-- C9 amended: detection jobs share the best (lowest) priority number 1
with sensor-data jobs — tied, not strictly higher — and are strictly ahead
of batch and aggregation jobs; the Stage-3 worker's rate ceiling (50 jobs
per second) is lower than the Stage-2 sensor-data worker's (100 jobs per
second, over the same window). -/
theorem detection_priority_spec :
    anomalyDetectionQueueOptions.priority = some 1 ∧
    anomalyDetectionQueueOptions.priority.getD 0 ≤
      sensorDataQueueOptions.priority.getD 0 ∧
    anomalyDetectionQueueOptions.priority.getD 0 <
      batchSensorDataQueueOptions.priority.getD 0 ∧
    anomalyDetectionQueueOptions.priority.getD 0 <
      dataAggregationQueueOptions.priority.getD 0 ∧
    anomalyDetectionWorkerOptions.limiterMax <
      sensorDataWorkerOptions.limiterMax ∧
    anomalyDetectionWorkerOptions.limiterDuration =
      sensorDataWorkerOptions.limiterDuration := by
  refine ⟨rfl, ?_, ?_, ?_, ?_, rfl⟩ <;> decide
